import Mathlib

/-!
Verification of the dev-mcps MCP server core: a shallow embedding of the
protocol dispatcher and tool registry (pkg/mcp), the parameter-extraction
helpers (pkg/mcp helpers), and the asynchronous command executor
(internal/command/server.go), together with theorems settling the frozen
claims about them.

Conventions of the embedding:
- Go `map[K]V` values are modelled as association lists `List (K × V)`
  where `lookup` finds the entry for a key and a store replaces any
  existing entry for the key (Go map assignment semantics).
- Go byte strings subject to byte-level operations (output capture and
  truncation) are modelled as `List Nat` (one element per byte); ASCII
  string literals are injected with `ascii`.
- Machine integers (`int`, exit codes) are modelled as `Int`; Go wall
  times (`time.Time`) as `Nat` tick counts whose zero value `0` plays the
  role of the zero `time.Time` (`IsZero`).
- External effects (a subprocess's wait outcome, the JSON decoder's
  verdict on a frame, a fresh UUID) are inputs to the modelled functions.
-/

namespace DevMcps

/-- A dynamically typed Go value (`interface{}`) as produced by
`encoding/json`: JSON numbers decode to `float64`, modelled here as `ℚ`;
the `int`/`int64` cases can also occur for values constructed in Go code. -/
inductive GoValue where
  | vString (s : String)
  | vFloat (q : ℚ)
  | vInt (n : Int)
  | vInt64 (n : Int)
  | vBool (b : Bool)
  | vArray (xs : List GoValue)
  | vMap (m : List (String × GoValue))
  | vNull
deriving Repr

/-- A Go `map[string]interface{}` parameter map. -/
abbrev Params := List (String × GoValue)

/-- Bytes of an ASCII string literal (Go `len`/slicing act on bytes; for
the ASCII literals appearing in the source this agrees with code points). -/
def ascii (s : String) : List Nat :=
  s.toList.map Char.toNat

/-- Go map assignment `m[k] = v`: replaces the entry for `k` if present,
otherwise adds one.  The association-list rendering keeps at most one
entry per key, matching a Go map's key uniqueness. -/
def mapStore {β : Type} (m : List (String × β)) (k : String) (v : β) : List (String × β) :=
  (m.filter (fun p => p.1 != k)) ++ [(k, v)]

/-- Go's `int(n)` conversion applied to a `float64`: truncation toward
zero (floor for nonnegative values, ceiling for negative ones).  This
models the Go language rule that float-to-integer conversion discards the
fractional part. -/
def goFloatToInt (q : ℚ) : Int :=
  if 0 ≤ q then ⌊q⌋ else ⌈q⌉

/-- `GetIntParam` from pkg/mcp helpers: fetches `key` from the map;
absent keys yield the default (or an error when required); `float64`,
`int` and `int64` values are converted to `int`; anything else is
rejected. -/
def GetIntParam (params : Params) (key : String) (required : Bool) (defaultValue : Int) :
    Except String Int :=
  match params.lookup key with
  | none =>
      if required then .error ("missing required parameter: " ++ key)
      else .ok defaultValue
  | some v =>
      match v with
      | .vFloat n => .ok (goFloatToInt n)
      | .vInt n => .ok n
      | .vInt64 n => .ok n
      | _ => .error ("parameter " ++ key ++ " must be an integer")

example : GetIntParam [("t", .vFloat (5/2))] "t" true 0 = .ok 2 := by
  norm_num [GetIntParam, goFloatToInt, List.lookup]
example : GetIntParam [("t", .vFloat (-(5/2)))] "t" true 0 = .ok (-2) := by
  norm_num [GetIntParam, goFloatToInt, List.lookup, Int.ceil_eq_iff]
example : GetIntParam [("t", .vString "x")] "t" true 0 = .error "parameter t must be an integer" :=
  rfl
example : GetIntParam [] "t" false 7 = .ok 7 := rfl
example : GetIntParam [] "t" true 7 = .error "missing required parameter: t" := rfl

/-! ## The MCP protocol server (pkg/mcp server)

`Server`, its JSON-RPC envelope types, tool registration, request
dispatch, and the read loop.  JSON encoding/decoding is external
(`encoding/json`), so a frame carries the decoder's verdict rather than
raw bytes, and `tools/call` parameters carry the verdict of unmarshalling
into the `{name, arguments}` struct. -/

/-- One block of a tool result (`ContentBlock`). -/
structure ContentBlock where
  type : String
  text : String
deriving Repr, DecidableEq

/-- A tool invocation result (`ToolResult`): content blocks plus the
error flag. -/
structure ToolResult where
  Content : List ContentBlock
  IsError : Bool
deriving Repr, DecidableEq

/-- A JSON-RPC error object (`RPCError`); `data` is the string the Go
code passes to `sendError`. -/
structure RPCError where
  Code : Int
  Message : String
  Data : String
deriving Repr, DecidableEq

/-- The cancellable execution context handed to handlers; only its
done/not-done state is observable to the modelled code. -/
structure Context where
  done : Bool
deriving Repr, DecidableEq

/-- A tool handler: Go's `func(ctx, params) (*ToolResult, error)`. -/
abbrev ToolHandler := Context → Params → Except String ToolResult

/-- The advisory input schema, a `map[string]interface{}` built by
`BuildInputSchema`; the dispatcher never inspects it. -/
abbrev InputSchemaTy := List (String × GoValue)

/-- A registered tool (`Tool`). -/
structure Tool where
  Name : String
  Description : String
  InputSchema : InputSchemaTy
  Handler : ToolHandler

/-- The request id (`ID interface{}`): a decoded JSON value; `vNull`
doubles as Go's untyped `nil` passed by the parse-error path. -/
abbrev ReqId := GoValue

/-- The decoder's verdict on a request's `params` field when
`handleToolsCall` unmarshals it into `{Name, Arguments}`: either the
unmarshal fails (also covering an absent params field) or it yields a
tool name and argument map. -/
inductive RawParams where
  | malformed (errMsg : String)
  | toolCall (name : String) (arguments : Params)

/-- A decoded request envelope (`Request`). -/
structure Request where
  jsonrpc : String
  id : ReqId
  method : String
  params : RawParams

/-- The payload handed to `sendResult`: either a generic decoded value
(the `map[string]interface{}` results of initialize and tools/list) or a
`*ToolResult`. -/
inductive ResultPayload where
  | value (v : GoValue)
  | toolResult (r : ToolResult)

/-- A response envelope (`Response`): exactly one of result or error. -/
inductive RespBody where
  | result (r : ResultPayload)
  | error (e : RPCError)

/-- A response as written to the output stream. -/
structure Response where
  jsonrpc : String
  id : ReqId
  body : RespBody

/-- The MCP server (`Server`): name, version and the tool registry map.
The input/output streams and the registry lock are not part of the pure
state; emitted responses are returned by the dispatch functions. -/
structure Server where
  name : String
  version : String
  tools : List (String × Tool)

/-- `NewServer`: empty registry. -/
def NewServer (name version : String) : Server :=
  { name := name, version := version, tools := [] }

/-- `Server.RegisterTool`: `s.tools[tool.Name] = tool`. -/
def Server.RegisterTool (s : Server) (tool : Tool) : Server :=
  { s with tools := mapStore s.tools tool.Name tool }

/-- `sendResult`: a well-formed result envelope. -/
def mkResult (id : ReqId) (r : ResultPayload) : Response :=
  { jsonrpc := "2.0", id := id, body := .result r }

/-- `sendError`: a well-formed error envelope. -/
def mkError (id : ReqId) (code : Int) (message data : String) : Response :=
  { jsonrpc := "2.0", id := id, body := .error ⟨code, message, data⟩ }

/-- `handleInitialize`: the static initialize result. -/
def Server.handleInitialize (s : Server) (req : Request) : Response :=
  mkResult req.id (.value (.vMap
    [("protocolVersion", .vString "2024-11-05"),
     ("capabilities", .vMap [("tools", .vMap [])]),
     ("serverInfo", .vMap
       [("name", .vString s.name), ("version", .vString s.version)])]))

/-- One element of the tools/list result array. -/
def toolListEntry (p : String × Tool) : GoValue :=
  .vMap [("name", .vString p.2.Name),
         ("description", .vString p.2.Description),
         ("inputSchema", .vMap p.2.InputSchema)]

/-- `handleToolsList`: a snapshot array over the registry map. -/
def Server.handleToolsList (s : Server) (req : Request) : Response :=
  mkResult req.id (.value (.vMap [("tools", .vArray (s.tools.map toolListEntry))]))

/-- `handleToolsCall`: unmarshal params, look the tool up, run its
handler; a handler error becomes an error-flagged result payload, an
unknown tool a protocol error. -/
def Server.handleToolsCall (s : Server) (ctx : Context) (req : Request) : Response :=
  match req.params with
  | .malformed e => mkError req.id (-32602) "Invalid params" e
  | .toolCall name arguments =>
      match s.tools.lookup name with
      | none => mkError req.id (-32602) "Unknown tool" name
      | some tool =>
          match tool.Handler ctx arguments with
          | .error err =>
              mkResult req.id (.toolResult
                { Content := [{ type := "text", text := err }], IsError := true })
          | .ok result => mkResult req.id (.toolResult result)

/-- `handleRequest`: the routing table.  Returns the responses written
(empty for the notification method). -/
def Server.handleRequest (s : Server) (ctx : Context) (req : Request) : List Response :=
  match req.method with
  | "initialize" => [s.handleInitialize req]
  | "tools/list" => [s.handleToolsList req]
  | "tools/call" => [s.handleToolsCall ctx req]
  | "notifications/initialized" => []
  | _ => [mkError req.id (-32601) "Method not found" req.method]

/-- One scanned frame together with the JSON decoder's verdict: empty
(`len(line) == 0`), failing to unmarshal into `Request`, or a decoded
request. -/
inductive Frame where
  | empty
  | malformed (errMsg : String)
  | request (req : Request)

/-- `Server.Run`: the read loop over the scanned frames.  `scanErr` is
`scanner.Err()` once scanning stops (`none` at genuine end of input).
Returns the responses written in order and the loop's return value
(`none` for a nil error). -/
def Server.run (s : Server) (ctx : Context) (frames : List Frame) (scanErr : Option String) :
    List Response × Option String :=
  match frames with
  | [] => ([], scanErr)
  | f :: rest =>
      if ctx.done then ([], some "context done")
      else
        let out : List Response :=
          match f with
          | .empty => []
          | .malformed e => [mkError .vNull (-32700) "Parse error" e]
          | .request req => s.handleRequest ctx req
        let tail := s.run ctx rest scanErr
        (out ++ tail.1, tail.2)

/-- The responses the loop emits for one frame (with the context not
done): nothing for an empty frame, one parse-error envelope for a
malformed frame, the dispatcher's output for a decoded request. -/
def frameOutput (s : Server) (ctx : Context) : Frame → List Response
  | .empty => []
  | .malformed e => [mkError .vNull (-32700) "Parse error" e]
  | .request req => s.handleRequest ctx req

/-! ## The command executor (internal/command/server.go)

`AsyncCommand`, `Executor`, the synchronous runner's result assembly,
the per-task background watcher, status and cancel.  A subprocess's
behaviour — the wait outcome and the context state — is an input to the
model.  `time.Time` values are `Nat` ticks with `0` as the zero time. -/

/-- A tracked asynchronous command (`AsyncCommand`).  The `Cmd` process
handle and `Cancel` function are the OS-facing half of the record; their
only model-visible effect is on the wait outcome fed to the watcher. -/
structure AsyncCommand where
  ID : String
  Stdout : String
  Stderr : String
  StartTime : Nat
  EndTime : Nat
  Status : String
  ExitCode : Int
deriving Repr, DecidableEq

/-- The executor (`Executor`): its `sync.Map` of async commands. -/
structure Executor where
  asyncCommands : List (String × AsyncCommand)
deriving Repr, DecidableEq

/-- The outcome of `cmd.Wait()` (or `cmd.Run()`) as the Go code
discriminates it: nil error, an `*exec.ExitError` with the given
`ExitCode()`, or any other error. -/
inductive WaitResult where
  | success
  | exitError (code : Int)
  | otherError (msg : String)
deriving Repr, DecidableEq

/-- Documented os/exec behaviour with `exec.CommandContext`: when the
context is cancelled (deadline or explicit) while the process runs, the
process is killed; `Wait` then returns an `*exec.ExitError` for the
signal-killed process, whose `ExitCode()` is `-1`.  Only when the
process happens to exit successfully right as the context fires does
`Wait` return the context's (non-ExitError) error instead. -/
def killedByContext : WaitResult := .exitError (-1)

/-- The watcher goroutine's terminal transition (server.go lines
167-183), applied to whatever record state it finds: it sets `EndTime`
unconditionally and then writes `ExitCode` and `Status` according to the
wait outcome.  It performs no check of the current status. -/
def watcherTransition (now : Nat) (wr : WaitResult) (c : AsyncCommand) : AsyncCommand :=
  let c1 := { c with EndTime := now }
  match wr with
  | .success => { c1 with ExitCode := 0, Status := "completed" }
  | .exitError code => { c1 with ExitCode := code, Status := "failed" }
  | .otherError _ => { c1 with ExitCode := -1, Status := "cancelled" }

/-- The watcher's individual field stores, in program order (EndTime,
then ExitCode, then Status).  Taking prefixes of this list yields every
intermediate state a concurrent reader can observe under an interleaving
(sequentially consistent) execution, since the fields are written
without a lock. -/
def watcherWrites (now : Nat) (wr : WaitResult) : List (AsyncCommand → AsyncCommand) :=
  (fun c => { c with EndTime := now }) ::
    match wr with
    | .success =>
        [fun c => { c with ExitCode := 0 }, fun c => { c with Status := "completed" }]
    | .exitError code =>
        [fun c => { c with ExitCode := code }, fun c => { c with Status := "failed" }]
    | .otherError _ =>
        [fun c => { c with ExitCode := -1 }, fun c => { c with Status := "cancelled" }]

/-- Apply a sequence of field stores in order. -/
def applyWrites (ws : List (AsyncCommand → AsyncCommand)) (c : AsyncCommand) : AsyncCommand :=
  ws.foldl (fun a f => f a) c

/-- The full watcher run equals its three stores applied in order. -/
theorem watcherTransition_eq_writes (now : Nat) (wr : WaitResult) (c : AsyncCommand) :
    applyWrites (watcherWrites now wr) c = watcherTransition now wr c := by
  cases wr <;> rfl

/-- `Executor.RunAsync` (server.go lines 128-186) up to the point of
return: `freshId` is the generated UUID (fresh by construction),
`startErr` the outcome of `cmd.Start()`.  On a start failure the context
is cancelled and the error returned with no record stored; otherwise the
record is stored with status running and the id returned.  The watcher
goroutine is modelled separately by `watcherRun`. -/
def RunAsync (e : Executor) (freshId : String) (now : Nat) (startErr : Option String) :
    Executor × Except String String :=
  match startErr with
  | some msg => (e, .error msg)
  | none =>
      let asyncCmd : AsyncCommand :=
        { ID := freshId, Stdout := "", Stderr := "", StartTime := now,
          EndTime := 0, Status := "running", ExitCode := 0 }
      ({ asyncCommands := mapStore e.asyncCommands freshId asyncCmd }, .ok freshId)

/-- `Executor.GetStatus`: `sync.Map` load. -/
def GetStatus (e : Executor) (commandID : String) : Option AsyncCommand :=
  e.asyncCommands.lookup commandID

/-- `Executor.CancelCommand` (server.go lines 195-205): only a record in
status running is cancelled (context cancel plus status flip, without
setting `EndTime`); an unknown or already terminal record is left
untouched and `false` returned. -/
def CancelCommand (e : Executor) (commandID : String) : Executor × Bool :=
  match e.asyncCommands.lookup commandID with
  | some asyncCmd =>
      if asyncCmd.Status = "running" then
        ({ asyncCommands :=
             mapStore e.asyncCommands commandID { asyncCmd with Status := "cancelled" } }, true)
      else (e, false)
  | none => (e, false)

/-- The watcher goroutine's effect on the executor's table: it mutates
(through its retained pointer) the record it owns. -/
def watcherRun (e : Executor) (commandID : String) (now : Nat) (wr : WaitResult) : Executor :=
  match e.asyncCommands.lookup commandID with
  | some asyncCmd =>
      { asyncCommands := mapStore e.asyncCommands commandID (watcherTransition now wr asyncCmd) }
  | none => e

/-- The status snapshot `handleGetCommandStatus` builds (command tools
lines 111-137) from a found record: a result map with status and exit
code always present, plus `duration_ms` exactly when the end time is
set (and `elapsed_ms` — the raw start time — otherwise). -/
def statusSnapshot (c : AsyncCommand) : List (String × GoValue) :=
  let base : List (String × GoValue) :=
    [("command_id", .vString c.ID),
     ("status", .vString c.Status),
     ("exit_code", .vInt c.ExitCode),
     ("stdout", .vString c.Stdout),
     ("stderr", .vString c.Stderr)]
  if c.EndTime ≠ 0 then
    base ++ [("duration_ms", .vInt ((c.EndTime : Int) - (c.StartTime : Int)))]
  else
    base ++ [("elapsed_ms", .vInt (c.StartTime : Int))]

/-! ### The synchronous runner -/

/-- A synchronous run's result (`CommandResult`); the output streams are
byte strings. -/
structure CommandResult where
  ExitCode : Int
  Stdout : List Nat
  Stderr : List Nat
  DurationMs : Int
deriving Repr, DecidableEq

/-- The truncation marker appended by `RunSync`. -/
def truncationMarker : List Nat := ascii "\n... (truncated)"

/-- One stream's truncation step (server.go lines 118-123): content
longer than the ceiling is cut to the first ceiling-many bytes with the
marker appended once; shorter content passes unchanged. -/
def truncateStream (maxOutputSizeBytes : Nat) (out : List Nat) : List Nat :=
  if out.length > maxOutputSizeBytes then out.take maxOutputSizeBytes ++ truncationMarker
  else out

/-- The context error `ctx.Err()` observed after `cmd.Run()` returns. -/
inductive CtxErr where
  | none
  | deadlineExceeded
  | canceled
deriving Repr, DecidableEq

/-- `Executor.RunSync`'s result assembly before truncation (server.go
lines 100-116): the captured streams and duration, then the error
handling — an `*exec.ExitError` contributes its exit code; otherwise a
deadline expiry replaces stderr with the timeout marker; any other
error replaces stderr with the error text.  The `ExitError` arm is
tested first and consults the context error not at all. -/
def runSyncAssemble (stdoutCap stderrCap : List Nat) (durationMs : Int)
    (wr : WaitResult) (ctxErr : CtxErr) : CommandResult :=
  let result : CommandResult :=
    { ExitCode := 0, Stdout := stdoutCap, Stderr := stderrCap, DurationMs := durationMs }
  match wr with
  | .success => result
  | .exitError code => { result with ExitCode := code }
  | .otherError msg =>
      if ctxErr = .deadlineExceeded then
        { result with ExitCode := -1, Stderr := ascii "command timed out" }
      else
        { result with ExitCode := -1, Stderr := ascii msg }

/-- `Executor.RunSync` (server.go lines 69-126): result assembly followed
by the two independent truncation steps. -/
def RunSync (maxOutputSizeBytes : Nat) (stdoutCap stderrCap : List Nat) (durationMs : Int)
    (wr : WaitResult) (ctxErr : CtxErr) : CommandResult :=
  let result := runSyncAssemble stdoutCap stderrCap durationMs wr ctxErr
  { result with
      Stdout := truncateStream maxOutputSizeBytes result.Stdout,
      Stderr := truncateStream maxOutputSizeBytes result.Stderr }

/-! ### Observation helpers and concrete fixtures -/

/-- Whether a decoded tools/list entry carries the given tool name. -/
def entryNamed (k : String) : GoValue → Bool
  | .vMap m =>
      match m.lookup "name" with
      | some (.vString s) => s == k
      | _ => false
  | _ => false

/-- Whether a `GoValue` is of one of the numeric types `GetIntParam`
accepts. -/
def isNumericValue : GoValue → Bool
  | .vFloat _ => true
  | .vInt _ => true
  | .vInt64 _ => true
  | _ => false

/-- A fixture tool whose handler always fails, standing for a handler
rejecting its arguments. -/
def failingTool : Tool :=
  { Name := "echo", Description := "always fails", InputSchema := [],
    Handler := fun _ _ => .error "missing required parameter: message" }

/-- A fixture server with the failing tool registered. -/
def fixtureServer : Server :=
  (NewServer "fixture" "1.0.0").RegisterTool failingTool

/-- First fixture tool for duplicate registration. -/
def dupToolA : Tool :=
  { Name := "dup", Description := "first", InputSchema := [],
    Handler := fun _ _ => .ok { Content := [{ type := "text", text := "A" }], IsError := false } }

/-- Second fixture tool for duplicate registration, same name. -/
def dupToolB : Tool :=
  { Name := "dup", Description := "second", InputSchema := [],
    Handler := fun _ _ => .ok { Content := [{ type := "text", text := "B" }], IsError := false } }

/-- A fixture async command record in status running. -/
def runningTask : AsyncCommand :=
  { ID := "task-1", Stdout := "", Stderr := "", StartTime := 10, EndTime := 0,
    Status := "running", ExitCode := 0 }

/-! ## Library lemmas about the Go-map model -/

theorem lookup_filterNe {β : Type} (m : List (String × β)) (k : String) :
    List.lookup k (m.filter (fun p => p.1 != k)) = none := by
  induction m with
  | nil => rfl
  | cons p t ih =>
    by_cases h : p.1 = k
    · rw [List.filter_cons_of_neg (by simp [h])]
      exact ih
    · rw [List.filter_cons_of_pos (by simp [h])]
      simp only [List.lookup]
      rw [show (k == p.1) = false by simp [Ne.symm h]]
      exact ih

theorem lookup_append_of_none {β : Type} (l1 l2 : List (String × β)) (k : String)
    (h : List.lookup k l1 = none) : List.lookup k (l1 ++ l2) = List.lookup k l2 := by
  induction l1 with
  | nil => rfl
  | cons p t ih =>
    simp only [List.lookup, List.cons_append] at h ⊢
    cases hk : (k == p.1) with
    | true => simp [hk] at h
    | false => simp only [hk] at h ⊢; exact ih h

/-- A store makes the stored value the one `lookup` finds. -/
theorem lookup_mapStore_self {β : Type} (m : List (String × β)) (k : String) (v : β) :
    List.lookup k (mapStore m k v) = some v := by
  rw [mapStore, lookup_append_of_none _ _ _ (lookup_filterNe m k)]
  simp [List.lookup]

/-- After a store, the map holds exactly one entry under the stored key. -/
theorem filter_mapStore_self {β : Type} (m : List (String × β)) (k : String) (v : β) :
    ((mapStore m k v).filter (fun p => p.1 == k)).length = 1 := by
  rw [mapStore, List.filter_append]
  have hnil : (m.filter (fun p => p.1 != k)).filter (fun p => p.1 == k) = [] := by
    induction m with
    | nil => rfl
    | cons p t ih =>
      by_cases h : p.1 = k
      · rw [List.filter_cons_of_neg (by simp [h])]
        exact ih
      · rw [List.filter_cons_of_pos (by simp [h]), List.filter_cons_of_neg (by simp [h])]
        exact ih
  simp [hnil, List.filter_cons]

/-- Registration preserves the registry invariant that each entry is
keyed by its tool's name. -/
theorem registerTool_wf (s : Server) (t : Tool) (hwf : ∀ p ∈ s.tools, p.1 = p.2.Name) :
    ∀ p ∈ (s.RegisterTool t).tools, p.1 = p.2.Name := by
  intro p hp
  simp only [Server.RegisterTool, mapStore, List.mem_append, List.mem_filter] at hp
  rcases hp with ⟨hm, _⟩ | hp
  · exact hwf p hm
  · simp only [List.mem_singleton] at hp
    subst hp
    rfl

/-! ## Lemmas about the status snapshot -/

theorem statusSnapshot_lookup_status (c : AsyncCommand) :
    (statusSnapshot c).lookup "status" = some (.vString c.Status) := by
  simp only [statusSnapshot]
  split <;> rfl

theorem statusSnapshot_lookup_exit_code (c : AsyncCommand) :
    (statusSnapshot c).lookup "exit_code" = some (.vInt c.ExitCode) := by
  simp only [statusSnapshot]
  split <;> rfl

theorem statusSnapshot_lookup_duration (c : AsyncCommand) (h : c.EndTime ≠ 0) :
    ((statusSnapshot c).lookup "duration_ms").isSome = true := by
  simp only [statusSnapshot]
  rw [if_pos h]
  rfl

/-! ## Claims -/

/-- Claim C1.  The claim requires both terminal transitions to be
idempotent and a cancelled task never to become COMPLETED or FAILED.
The code keeps only half of this: `CancelCommand` is a no-op on a
terminal task, but the watcher applies its transition unconditionally,
so a task cancelled while running is overwritten when the killed
process is reaped — `cmd.Wait` returns an `*exec.ExitError` for the
signal-killed process (`killedByContext`) and the watcher flips the
status from cancelled to failed.  This theorem evaluates the code at
that failing input. -/
theorem cancel_then_natural_exit_overwrites_cancelled :
    (CancelCommand { asyncCommands := [("task-1", runningTask)] } "task-1").2 = true
    ∧ (GetStatus (CancelCommand { asyncCommands := [("task-1", runningTask)] } "task-1").1
        "task-1").map AsyncCommand.Status = some "cancelled"
    ∧ CancelCommand (CancelCommand { asyncCommands := [("task-1", runningTask)] } "task-1").1
        "task-1"
        = ((CancelCommand { asyncCommands := [("task-1", runningTask)] } "task-1").1, false)
    ∧ (GetStatus
        (watcherRun (CancelCommand { asyncCommands := [("task-1", runningTask)] } "task-1").1
          "task-1" 12 killedByContext) "task-1").map AsyncCommand.Status = some "failed" := by
  decide

/-- Claim C2: under an interleaving execution of the watcher's three
field stores, every observable snapshot that reports status completed
already carries a set end time (`duration_ms` present) and the completed
exit code — the status store is the last of the three. -/
theorem completed_status_implies_exit_code_and_end_time_set
    (c0 : AsyncCommand) (now : Nat) (wr : WaitResult) (n : Nat)
    (h0 : c0.Status ≠ "completed") (hn : now ≠ 0) :
    ((statusSnapshot (applyWrites ((watcherWrites now wr).take n) c0)).lookup "status"
        = some (.vString "completed")) →
      ((statusSnapshot (applyWrites ((watcherWrites now wr).take n) c0)).lookup
          "duration_ms").isSome = true
        ∧ (statusSnapshot (applyWrites ((watcherWrites now wr).take n) c0)).lookup "exit_code"
            = some (.vInt 0) := by
  intro hst
  rw [statusSnapshot_lookup_status] at hst
  have hstat : (applyWrites ((watcherWrites now wr).take n) c0).Status = "completed" := by
    simpa using hst
  rcases n with _ | _ | _ | n
  · exact absurd hstat h0
  · exact absurd hstat h0
  · cases wr <;> exact absurd hstat h0
  · have hfull : List.take (n + 1 + 1 + 1) (watcherWrites now wr) = watcherWrites now wr :=
      List.take_of_length_le (by cases wr <;> simp [watcherWrites])
    rw [hfull, watcherTransition_eq_writes] at hstat ⊢
    cases wr with
    | success =>
        refine ⟨statusSnapshot_lookup_duration _ ?_, ?_⟩
        · simpa [watcherTransition] using hn
        · rw [statusSnapshot_lookup_exit_code]
          simp [watcherTransition]
    | exitError code => simp [watcherTransition] at hstat
    | otherError msg => simp [watcherTransition] at hstat

/-- Witness for C2: a concrete running task, the completed watcher run
fully applied, observed completed with duration and exit code set. -/
theorem completed_status_implies_fields_set_witness :
    runningTask.Status ≠ "completed" ∧ (12 : Nat) ≠ 0
    ∧ ((statusSnapshot (applyWrites ((watcherWrites 12 .success).take 3) runningTask)).lookup
        "status" = some (.vString "completed"))
    ∧ (((statusSnapshot (applyWrites ((watcherWrites 12 .success).take 3) runningTask)).lookup
          "duration_ms").isSome = true
        ∧ (statusSnapshot (applyWrites ((watcherWrites 12 .success).take 3) runningTask)).lookup
            "exit_code" = some (.vInt 0)) :=
  ⟨by decide, by decide, rfl,
    completed_status_implies_exit_code_and_end_time_set runningTask 12 .success 3
      (by decide) (by decide) rfl⟩

/-- Claim C3.  On deadline expiry the subprocess is indeed killed, but
`cmd.Run` then reports the kill as an `*exec.ExitError`
(`killedByContext`), which `RunSync` tests before it consults
`ctx.Err()`: the result carries exit code `-1` and the untouched
captured stderr — no `command timed out` marker — and equals byte for
byte the result of an ordinary non-timeout signal kill.  This theorem
evaluates the code at that failing input. -/
theorem timeout_kill_lacks_timeout_marker :
    RunSync 1024 (ascii "partial out") (ascii "partial err") 1500 killedByContext
        .deadlineExceeded
      = { ExitCode := -1, Stdout := ascii "partial out", Stderr := ascii "partial err",
          DurationMs := 1500 }
    ∧ (RunSync 1024 (ascii "partial out") (ascii "partial err") 1500 killedByContext
        .deadlineExceeded).Stderr ≠ ascii "command timed out"
    ∧ RunSync 1024 (ascii "partial out") (ascii "partial err") 1500 killedByContext
        .deadlineExceeded
      = RunSync 1024 (ascii "partial out") (ascii "partial err") 1500 (.exitError (-1)) .none := by
  decide

/-- Counterexample to claim C4 as stated: for a run whose `cmd.Run`
error is not an `*exec.ExitError` (here a start failure), the captured
stderr (empty, hence at or below any ceiling) is not returned
unchanged — error handling replaces it with the error text before
truncation. -/
theorem stderr_not_captured_on_other_error :
    ([] : List Nat).length ≤ 1024
    ∧ (RunSync 1024 [] [] 5
        (.otherError "exec: \"nosuch\": executable file not found in $PATH") .none).Stderr
      ≠ [] := by
  decide

/-- Claim C4 as amended: each stream present in the result is truncated
independently — above the ceiling to exactly the first ceiling-many
bytes plus one trailing marker, unchanged at or below it.  The stdout
stream is always the captured stdout; the stderr stream is the captured
stderr whenever the wait error was nil or an `*exec.ExitError`, and
otherwise the error-handling replacement (timeout marker or error
text), to which the same truncation applies. -/
theorem run_sync_truncation (maxB : Nat) (sOut sErr : List Nat) (d : Int)
    (wr : WaitResult) (ce : CtxErr) :
    (sOut.length > maxB →
        (RunSync maxB sOut sErr d wr ce).Stdout = sOut.take maxB ++ truncationMarker)
    ∧ (sOut.length ≤ maxB → (RunSync maxB sOut sErr d wr ce).Stdout = sOut)
    ∧ (∀ sErr2, (RunSync maxB sOut sErr2 d wr ce).Stdout
        = (RunSync maxB sOut sErr d wr ce).Stdout)
    ∧ ((wr = .success ∨ ∃ c, wr = .exitError c) →
        (sErr.length > maxB →
            (RunSync maxB sOut sErr d wr ce).Stderr = sErr.take maxB ++ truncationMarker)
        ∧ (sErr.length ≤ maxB → (RunSync maxB sOut sErr d wr ce).Stderr = sErr))
    ∧ (∀ sOut2, (RunSync maxB sOut2 sErr d wr ce).Stderr
        = (RunSync maxB sOut sErr d wr ce).Stderr)
    ∧ (∀ msg, wr = .otherError msg →
        (RunSync maxB sOut sErr d wr ce).Stderr
          = truncateStream maxB
              (if ce = .deadlineExceeded then ascii "command timed out" else ascii msg)) := by
  have hA : ∀ sO sE : List Nat, (runSyncAssemble sO sE d wr ce).Stdout = sO := by
    intro sO sE
    cases wr <;> cases ce <;> rfl
  have hRSout : ∀ sO sE : List Nat,
      (RunSync maxB sO sE d wr ce).Stdout = truncateStream maxB sO := by
    intro sO sE
    show truncateStream maxB (runSyncAssemble sO sE d wr ce).Stdout = _
    rw [hA]
  have hE : (wr = .success ∨ ∃ c, wr = .exitError c) →
      ∀ sO sE : List Nat, (runSyncAssemble sO sE d wr ce).Stderr = sE := by
    rintro (rfl | ⟨c, rfl⟩) sO sE <;> rfl
  have hE2 : ∀ sO sO2 sE : List Nat,
      (runSyncAssemble sO sE d wr ce).Stderr = (runSyncAssemble sO2 sE d wr ce).Stderr := by
    intro sO sO2 sE
    cases wr <;> cases ce <;> rfl
  refine ⟨?_, ?_, ?_, ?_, ?_, ?_⟩
  · intro h
    rw [hRSout]
    simp only [truncateStream]
    rw [if_pos h]
  · intro h
    rw [hRSout]
    simp only [truncateStream]
    rw [if_neg (by omega)]
  · intro sErr2
    rw [hRSout, hRSout]
  · intro hwr
    constructor
    · intro h
      show truncateStream maxB (runSyncAssemble sOut sErr d wr ce).Stderr = _
      rw [hE hwr]
      simp only [truncateStream]
      rw [if_pos h]
    · intro h
      show truncateStream maxB (runSyncAssemble sOut sErr d wr ce).Stderr = _
      rw [hE hwr]
      simp only [truncateStream]
      rw [if_neg (by omega)]
  · intro sOut2
    show truncateStream maxB (runSyncAssemble sOut2 sErr d wr ce).Stderr
      = truncateStream maxB (runSyncAssemble sOut sErr d wr ce).Stderr
    rw [hE2 sOut2 sOut]
  · rintro msg rfl
    show truncateStream maxB (runSyncAssemble sOut sErr d (.otherError msg) ce).Stderr = _
    cases ce <;> rfl

/-- Witness for C4 at a ceiling of 4 bytes: an 8-byte stdout is cut to
its first 4 bytes plus one marker while the short stderr passes
unchanged. -/
theorem run_sync_truncation_witness :
    (ascii "abcdefgh").length > 4
    ∧ (ascii "xy").length ≤ 4
    ∧ (RunSync 4 (ascii "abcdefgh") (ascii "xy") 7 .success .none).Stdout
        = (ascii "abcdefgh").take 4 ++ truncationMarker
    ∧ (RunSync 4 (ascii "abcdefgh") (ascii "xy") 7 .success .none).Stderr = ascii "xy" :=
  ⟨by decide, by decide,
    (run_sync_truncation 4 (ascii "abcdefgh") (ascii "xy") 7 .success .none).1 (by decide),
    ((run_sync_truncation 4 (ascii "abcdefgh") (ascii "xy") 7 .success .none).2.2.2.1
      (Or.inl rfl)).2 (by decide)⟩

/-- Claim C5: the read loop skips empty frames, answers each malformed
frame with exactly one parse-error response and keeps going, and at end
of input (no scanner error) returns cleanly: the emitted responses are
exactly the per-frame outputs concatenated in arrival order, and the
loop's return value is nil. -/
theorem read_loop_recovers_and_ends_cleanly (s : Server) (ctx : Context)
    (frames : List Frame) (h : ctx.done = false) :
    s.run ctx frames none = (frames.flatMap (frameOutput s ctx), none)
    ∧ frameOutput s ctx .empty = []
    ∧ (∀ e, frameOutput s ctx (.malformed e) = [mkError .vNull (-32700) "Parse error" e]) := by
  refine ⟨?_, rfl, fun e => rfl⟩
  induction frames with
  | nil => rfl
  | cons f rest ih =>
      cases f <;> simp [Server.run, h, frameOutput, ih]

/-- Witness for C5: two empty frames around one malformed frame and an
initialize request yield one parse-error response, then the initialize
response, and a clean end. -/
theorem read_loop_witness :
    (Context.mk false).done = false
    ∧ (NewServer "srv" "1.0.0").run ⟨false⟩
        [.empty, .malformed "invalid character", .empty,
         .request { jsonrpc := "2.0", id := .vInt 1, method := "initialize",
                    params := .malformed "unexpected end of JSON input" }]
        none
      = ([mkError .vNull (-32700) "Parse error" "invalid character",
          (NewServer "srv" "1.0.0").handleInitialize
            { jsonrpc := "2.0", id := .vInt 1, method := "initialize",
              params := .malformed "unexpected end of JSON input" }], none) :=
  ⟨rfl,
    Eq.trans
      (read_loop_recovers_and_ends_cleanly (NewServer "srv" "1.0.0") ⟨false⟩
        [.empty, .malformed "invalid character", .empty,
         .request { jsonrpc := "2.0", id := .vInt 1, method := "initialize",
                    params := .malformed "unexpected end of JSON input" }] rfl).1
      rfl⟩

/-- Claim C6: a registered tool whose handler returns an error yields a
normally-formed result response whose payload is a single error-flagged
content block — never a protocol-level error envelope. -/
theorem handler_error_becomes_flagged_payload (s : Server) (ctx : Context) (id : ReqId)
    (jr name : String) (args : Params) (tool : Tool) (e : String)
    (hlook : s.tools.lookup name = some tool)
    (hrun : tool.Handler ctx args = .error e) :
    s.handleRequest ctx
        { jsonrpc := jr, id := id, method := "tools/call", params := .toolCall name args }
      = [mkResult id (.toolResult
          { Content := [{ type := "text", text := e }], IsError := true })] := by
  simp [Server.handleRequest, Server.handleToolsCall, hlook, hrun]

/-- Witness for C6: the fixture tool's handler fails; the response is
the error-flagged result payload. -/
theorem handler_error_becomes_flagged_payload_witness :
    fixtureServer.tools.lookup "echo" = some failingTool
    ∧ failingTool.Handler ⟨false⟩ [] = .error "missing required parameter: message"
    ∧ fixtureServer.handleRequest ⟨false⟩
        { jsonrpc := "2.0", id := .vInt 3, method := "tools/call",
          params := .toolCall "echo" [] }
      = [mkResult (.vInt 3) (.toolResult
          { Content := [{ type := "text", text := "missing required parameter: message" }],
            IsError := true })] :=
  ⟨rfl, rfl,
    handler_error_becomes_flagged_payload fixtureServer ⟨false⟩ (.vInt 3) "2.0" "echo" []
      failingTool "missing required parameter: message" rfl rfl⟩

/-- Claim C7: a tools/call naming an unregistered tool yields exactly
one protocol-level error envelope with the reserved invalid-params code
-32602 and the message Unknown tool; dispatch is a total function, so
it neither crashes nor hangs. -/
theorem unknown_tool_yields_invalid_params_error (s : Server) (ctx : Context) (id : ReqId)
    (jr name : String) (args : Params)
    (hlook : s.tools.lookup name = none) :
    s.handleRequest ctx
        { jsonrpc := jr, id := id, method := "tools/call", params := .toolCall name args }
      = [mkError id (-32602) "Unknown tool" name] := by
  simp [Server.handleRequest, Server.handleToolsCall, hlook]

/-- Witness for C7: calling an unregistered name on the fixture server. -/
theorem unknown_tool_yields_invalid_params_error_witness :
    fixtureServer.tools.lookup "no_such_tool" = none
    ∧ fixtureServer.handleRequest ⟨false⟩
        { jsonrpc := "2.0", id := .vInt 4, method := "tools/call",
          params := .toolCall "no_such_tool" [] }
      = [mkError (.vInt 4) (-32602) "Unknown tool" "no_such_tool"] :=
  ⟨rfl,
    unknown_tool_yields_invalid_params_error fixtureServer ⟨false⟩ (.vInt 4) "2.0"
      "no_such_tool" [] rfl⟩

/-- Claim C8: when `cmd.Start()` fails, `RunAsync` returns the error
synchronously and stores nothing — the task table is the one it started
with — so status and cancel for any id unknown before the attempt still
report unknown (`none`, respectively `false`). -/
theorem spawn_start_failure_creates_no_task (e : Executor) (freshId msg : String) (now : Nat)
    (id : String) (hid : e.asyncCommands.lookup id = none) :
    RunAsync e freshId now (some msg) = (e, .error msg)
    ∧ GetStatus (RunAsync e freshId now (some msg)).1 id = none
    ∧ CancelCommand (RunAsync e freshId now (some msg)).1 id
        = ((RunAsync e freshId now (some msg)).1, false) := by
  refine ⟨rfl, hid, ?_⟩
  simp [CancelCommand, RunAsync, hid]

/-- Witness for C8: a failed spawn on an empty table. -/
theorem spawn_start_failure_creates_no_task_witness :
    (Executor.mk []).asyncCommands.lookup "any-id" = none
    ∧ RunAsync ⟨[]⟩ "fresh-uuid" 5 (some "fork/exec /bin/nosuch: no such file or directory")
        = (⟨[]⟩, .error "fork/exec /bin/nosuch: no such file or directory")
    ∧ GetStatus (RunAsync ⟨[]⟩ "fresh-uuid" 5
        (some "fork/exec /bin/nosuch: no such file or directory")).1 "any-id" = none
    ∧ CancelCommand (RunAsync ⟨[]⟩ "fresh-uuid" 5
        (some "fork/exec /bin/nosuch: no such file or directory")).1 "any-id"
        = ((RunAsync ⟨[]⟩ "fresh-uuid" 5
            (some "fork/exec /bin/nosuch: no such file or directory")).1, false) :=
  ⟨rfl,
    (spawn_start_failure_creates_no_task ⟨[]⟩ "fresh-uuid"
      "fork/exec /bin/nosuch: no such file or directory" 5 "any-id" rfl).1,
    (spawn_start_failure_creates_no_task ⟨[]⟩ "fresh-uuid"
      "fork/exec /bin/nosuch: no such file or directory" 5 "any-id" rfl).2.1,
    (spawn_start_failure_creates_no_task ⟨[]⟩ "fresh-uuid"
      "fork/exec /bin/nosuch: no such file or directory" 5 "any-id" rfl).2.2⟩

/-- Each tools/list entry carries the name of the tool it was built
from. -/
theorem entryNamed_toolListEntry (k : String) (p : String × Tool) :
    entryNamed k (toolListEntry p) = (p.2.Name == k) := rfl

/-- Claim C9: registering a second tool under an existing name silently
replaces the first: lookup finds the later tool, the registry and the
tools/list array hold exactly one entry for the name, and tools/call
dispatches to the later handler. -/
theorem duplicate_registration_replaces (s : Server) (t1 t2 : Tool)
    (hname : t1.Name = t2.Name) (hwf : ∀ p ∈ s.tools, p.1 = p.2.Name) :
    ((s.RegisterTool t1).RegisterTool t2).tools.lookup t2.Name = some t2
    ∧ ((((s.RegisterTool t1).RegisterTool t2).tools.filter
          (fun p => p.1 == t2.Name)).length = 1)
    ∧ ((((s.RegisterTool t1).RegisterTool t2).tools.map toolListEntry).filter
          (entryNamed t2.Name)).length = 1
    ∧ (∀ ctx id jr args,
        ((s.RegisterTool t1).RegisterTool t2).handleToolsCall ctx
            { jsonrpc := jr, id := id, method := "tools/call",
              params := .toolCall t2.Name args }
          = match t2.Handler ctx args with
            | .error err => mkResult id (.toolResult
                { Content := [{ type := "text", text := err }], IsError := true })
            | .ok result => mkResult id (.toolResult result)) := by
  have hwf2 : ∀ p ∈ ((s.RegisterTool t1).RegisterTool t2).tools, p.1 = p.2.Name :=
    registerTool_wf _ _ (registerTool_wf _ _ hwf)
  have hlook : ((s.RegisterTool t1).RegisterTool t2).tools.lookup t2.Name = some t2 :=
    lookup_mapStore_self _ _ _
  refine ⟨hlook, filter_mapStore_self _ _ _, ?_, ?_⟩
  · have hpred : (((s.RegisterTool t1).RegisterTool t2).tools.filter
          ((entryNamed t2.Name) ∘ toolListEntry))
        = ((s.RegisterTool t1).RegisterTool t2).tools.filter (fun p => p.1 == t2.Name) := by
      apply List.filter_congr
      intro p hp
      have h1 := hwf2 p hp
      simp [Function.comp, entryNamed_toolListEntry, ← h1]
    rw [List.filter_map, List.length_map, hpred]
    exact filter_mapStore_self _ _ _
  · intro ctx id jr args
    cases hr : t2.Handler ctx args <;> simp [Server.handleToolsCall, hlook, hr]

/-- Witness for C9: two fixture tools sharing the name dup; after both
registrations the later one is the single visible entry and handles the
call. -/
theorem duplicate_registration_replaces_witness :
    dupToolA.Name = dupToolB.Name
    ∧ (∀ p ∈ (NewServer "srv" "1.0.0").tools, p.1 = p.2.Name)
    ∧ (((NewServer "srv" "1.0.0").RegisterTool dupToolA).RegisterTool dupToolB).tools.lookup
        "dup" = some dupToolB
    ∧ (((((NewServer "srv" "1.0.0").RegisterTool dupToolA).RegisterTool
          dupToolB).tools.filter (fun p => p.1 == "dup")).length = 1)
    ∧ (((((NewServer "srv" "1.0.0").RegisterTool dupToolA).RegisterTool
          dupToolB).tools.map toolListEntry).filter (entryNamed "dup")).length = 1
    ∧ (((NewServer "srv" "1.0.0").RegisterTool dupToolA).RegisterTool
          dupToolB).handleToolsCall ⟨false⟩
          { jsonrpc := "2.0", id := .vInt 7, method := "tools/call",
            params := .toolCall "dup" [] }
        = mkResult (.vInt 7) (.toolResult
            { Content := [{ type := "text", text := "B" }], IsError := false }) := by
  have h := duplicate_registration_replaces (NewServer "srv" "1.0.0") dupToolA dupToolB rfl
    (by simp [NewServer])
  exact ⟨rfl, by simp [NewServer], h.1, h.2.1, h.2.2.1,
    Eq.trans (h.2.2.2 ⟨false⟩ (.vInt 7) "2.0" []) rfl⟩

/-- Claim C10: `GetIntParam` accepts float64, int and int64 values,
converting the float case with Go's truncation toward zero (so a
fractional number is silently truncated, never rejected); only a
present non-numeric value yields the must-be-an-integer error; an
absent key yields the default when not required and an error when
required.  The last two conjuncts pin down `goFloatToInt` as the
toward-zero truncation. -/
theorem get_int_param_numeric_truncation (params : Params) (key : String) (d : Int) :
    (params.lookup key = none →
        GetIntParam params key true d = .error ("missing required parameter: " ++ key)
        ∧ GetIntParam params key false d = .ok d)
    ∧ (∀ q, params.lookup key = some (.vFloat q) →
        ∀ r, GetIntParam params key r d = .ok (goFloatToInt q))
    ∧ (∀ n, params.lookup key = some (.vInt n) → ∀ r, GetIntParam params key r d = .ok n)
    ∧ (∀ n, params.lookup key = some (.vInt64 n) → ∀ r, GetIntParam params key r d = .ok n)
    ∧ (∀ v, params.lookup key = some v → isNumericValue v = false →
        ∀ r, GetIntParam params key r d
          = .error ("parameter " ++ key ++ " must be an integer"))
    ∧ (∀ q : ℚ, 0 ≤ q →
        (goFloatToInt q : ℚ) ≤ q ∧ q < (goFloatToInt q : ℚ) + 1 ∧ 0 ≤ goFloatToInt q)
    ∧ (∀ q : ℚ, q < 0 →
        q ≤ (goFloatToInt q : ℚ) ∧ (goFloatToInt q : ℚ) - 1 < q ∧ goFloatToInt q ≤ 0) := by
  refine ⟨?_, ?_, ?_, ?_, ?_, ?_, ?_⟩
  · intro h
    exact ⟨by simp [GetIntParam, h], by simp [GetIntParam, h]⟩
  · intro q h r
    simp [GetIntParam, h]
  · intro n h r
    simp [GetIntParam, h]
  · intro n h r
    simp [GetIntParam, h]
  · intro v h hnum r
    cases v <;> simp_all [GetIntParam, isNumericValue]
  · intro q hq
    rw [goFloatToInt, if_pos hq]
    exact ⟨Int.floor_le q, Int.lt_floor_add_one q, Int.floor_nonneg.mpr hq⟩
  · intro q hq
    rw [goFloatToInt, if_neg (not_le.mpr hq)]
    refine ⟨Int.le_ceil q, ?_, Int.ceil_le.mpr (by push_cast; exact hq.le)⟩
    have h1 := Int.ceil_lt_add_one q
    linarith

/-- Witness for C10: fractional 5/2 truncates to 2 and -5/2 to -2; a
boolean is rejected; an absent key yields the default or the missing
error. -/
theorem get_int_param_numeric_truncation_witness :
    List.lookup "n" [("n", GoValue.vFloat (5/2))] = some (.vFloat (5/2))
    ∧ GetIntParam [("n", .vFloat (5/2))] "n" true 0 = .ok 2
    ∧ GetIntParam [("n", .vFloat (-(5/2)))] "n" true 0 = .ok (-2)
    ∧ GetIntParam [("n", .vBool true)] "n" true 0 = .error "parameter n must be an integer"
    ∧ GetIntParam [] "n" false 9 = .ok 9
    ∧ GetIntParam [] "n" true 9 = .error "missing required parameter: n" := by
  refine ⟨rfl, ?_, ?_, ?_, ?_, ?_⟩
  · have h := (get_int_param_numeric_truncation [("n", .vFloat (5/2))] "n" 0).2.1 (5/2) rfl true
    rw [h]
    norm_num [goFloatToInt]
  · have h := (get_int_param_numeric_truncation [("n", .vFloat (-(5/2)))] "n" 0).2.1
      (-(5/2)) rfl true
    rw [h]
    norm_num [goFloatToInt, Int.ceil_eq_iff]
  · exact (get_int_param_numeric_truncation [("n", .vBool true)] "n" 0).2.2.2.2.1
      (.vBool true) rfl rfl true
  · exact ((get_int_param_numeric_truncation [] "n" 9).1 rfl).2
  · exact ((get_int_param_numeric_truncation [] "n" 9).1 rfl).1

end DevMcps
